import Mathlib

/-!
Shallow embedding of the XRCrawler Reddit harvesting core
(src/platforms/reddit/), covering:

* `SubredditScraper.fetch_subreddit_posts` (scrapers/subreddit_scraper.py),
  the multi-strategy coordinator;
* `TimeRangeStrategy.fetch_posts` (strategies/time_range.py);
* `SearchStrategy.fetch_posts` (strategies/search.py);
* `RedditScraper.__init__` target parsing, `RedditScraper.scrape` and
  `RedditScraper._filter_existing_posts` (scraper.py);
* a spec-modelled `PaginatedStrategy.fetch_posts` (strategies/paginated.py is
  imported by the coordinator but its source file is not available).

HTTP transport, the numeric state of the rate controller and persistence are
external collaborators (spec §1); strategy invocations that go through them
are modelled as explicit function parameters giving the candidate lists each
underlying request would return.  A candidate is a `(url, id)` pair; Python
sets of collected ids are represented by the id-projection of the accumulated
list, which the source keeps synchronized with the set at every step.
-/

namespace XRCrawler

/-- A candidate: a `(post_url, post_id)` pair (spec §3 CandidateId). -/
abbrev Cand := String × String

/-! ## Coordinator merge loops (scrapers/subreddit_scraper.py) -/

/-- The primary-strategy merge loop, subreddit_scraper.py lines 59-62:
append each candidate whose id is not yet collected; no quota check.
`collected_ids` is exactly the set of ids of the accumulated list. -/
def mergeDedup (acc : List Cand) : List Cand → List Cand
  | [] => acc
  | c :: rest =>
    if c.2 ∈ acc.map Prod.snd then mergeDedup acc rest
    else mergeDedup (acc ++ [c]) rest

/-- The fallback-strategy merge loops, subreddit_scraper.py lines 80-85 and
98-103: append each new id, and break once the accumulated length has
reached `max_posts` (the check runs after the append). -/
def mergeTrunc (max_posts : Nat) (acc : List Cand) : List Cand → List Cand
  | [] => acc
  | c :: rest =>
    if c.2 ∈ acc.map Prod.snd then mergeTrunc max_posts acc rest
    else
      if max_posts ≤ (acc ++ [c]).length then acc ++ [c]
      else mergeTrunc max_posts (acc ++ [c]) rest

/-- Result of one coordinator run: the merged candidate list plus flags
recording whether the time-range / search strategies were invoked. -/
structure CoordRun where
  posts : List Cand
  usedTimeRange : Bool
  usedSearch : Bool
deriving DecidableEq, Repr

namespace SubredditScraper

/-- `SubredditScraper.fetch_subreddit_posts` (subreddit_scraper.py lines
23-106).  `primary` is the list returned by the primary
`PaginatedStrategy.fetch_posts` call; `time_range_fetch q` (resp.
`search_fetch q`) is the list `TimeRangeStrategy.fetch_posts` (resp.
`SearchStrategy.fetch_posts`) returns when invoked with `max_posts = q`.
`keywords = []` models both `None` and an empty keyword list (Python
truthiness of the `keywords` argument). -/
def fetch_subreddit_posts (max_posts : Nat) (sort_type : String)
    (keywords : List String) (primary : List Cand)
    (time_range_fetch : Nat → List Cand) (search_fetch : Nat → List Cand) :
    CoordRun :=
  let afterPrimary := mergeDedup [] primary
  if afterPrimary.length < max_posts then
    let useTR := sort_type ≠ "top"
    let afterTR :=
      if useTR then
        mergeTrunc max_posts afterPrimary
          (time_range_fetch (max_posts - afterPrimary.length))
      else afterPrimary
    let useS := keywords ≠ [] ∧ afterTR.length < max_posts
    let afterS :=
      if useS then
        mergeTrunc max_posts afterTR
          (search_fetch (max_posts - afterTR.length))
      else afterTR
    ⟨afterS, useTR, useS⟩
  else
    ⟨afterPrimary, false, false⟩

end SubredditScraper

/-! ## TimeRangeStrategy (strategies/time_range.py) -/

/-- The default window list, time_range.py line 37. -/
def pyDefaultTimeRanges : List String := ["day", "week", "month", "year", "all"]

/-- One per-window request issued by `TimeRangeStrategy.fetch_posts`:
the window name, the `max_posts` value handed to the per-window
`PaginatedStrategy`, and the number of candidates already collected at the
moment the request was issued. -/
structure TRReq where
  window : String
  asked : Nat
  countBefore : Nat
deriving DecidableEq, Repr

/-- Per-batch dedup of time_range.py lines 63-67: keep the candidates whose
id is not in `collected_ids`, adding each kept id as it goes. -/
def dedupNew (seen : List String) : List Cand → List Cand
  | [] => []
  | c :: rest =>
    if c.2 ∈ seen then dedupNew seen rest
    else c :: dedupNew (c.2 :: seen) rest

namespace TimeRangeStrategy

/-- The window loop of time_range.py lines 42-70.  `fetch_window tr q` is the
list the fresh per-window `PaginatedStrategy.fetch_posts` call returns for
time filter `tr` and `max_posts = q`.  The second component records every
per-window request issued.  `collected_ids` is exactly the id set of the
accumulated list (both are extended together, lines 66-69). -/
def go (fetch_window : String → Nat → List Cand) (max_posts : Nat) :
    List Cand → List TRReq → List String → List Cand × List TRReq
  | acc, reqs, [] => (acc, reqs)
  | acc, reqs, tr :: rest =>
    if max_posts ≤ acc.length then (acc, reqs)
    else
      let remaining := max 100 (max_posts - acc.length)
      let asked := min remaining 1000
      let batch_new := dedupNew (acc.map Prod.snd) (fetch_window tr asked)
      go fetch_window max_posts (acc ++ batch_new)
        (reqs ++ [⟨tr, asked, acc.length⟩]) rest

/-- `TimeRangeStrategy.fetch_posts` (time_range.py lines 15-72).
`time_ranges = []` models both `None` and an empty list (`if not
time_ranges`, line 36). -/
def fetch_posts (fetch_window : String → Nat → List Cand) (max_posts : Nat)
    (time_ranges : List String) : List Cand × List TRReq :=
  let trs := if time_ranges = [] then pyDefaultTimeRanges else time_ranges
  go fetch_window max_posts [] [] trs

end TimeRangeStrategy

/-! ## SearchStrategy (strategies/search.py) -/

/-- The per-keyword quota search.py line 40 computes (and, as the claims
examine, never reads again): `max(1, max_posts // len(keywords))`. -/
def pyPostsPerKeyword (max_posts : Nat) (keywords : List String) : Nat :=
  max 1 (max_posts / keywords.length)

namespace SearchStrategy

/-- The per-response item loop of search.py lines 78-89: stop as soon as the
overall count reaches `max_posts` (checked before each item), append each
candidate whose id is not in `all_found_posts`.  `all_found_posts` is
exactly the id set of the accumulated list. -/
def inner (max_posts : Nat) : List Cand → List Cand → List Cand
  | acc, [] => acc
  | acc, c :: rest =>
    if max_posts ≤ acc.length then acc
    else if c.2 ∈ acc.map Prod.snd then inner max_posts acc rest
    else inner max_posts (acc ++ [c]) rest

/-- The keyword loop of search.py lines 48-104 on a failure-free run (every
search request answers HTTP 200): `results kw` is the candidate list parsed
from the search response for keyword `kw`. -/
def go (results : String → List Cand) (max_posts : Nat) :
    List Cand → List String → List Cand
  | acc, [] => acc
  | acc, kw :: rest =>
    if max_posts ≤ acc.length then acc
    else go results max_posts (inner max_posts acc (results kw)) rest

/-- `SearchStrategy.fetch_posts` (search.py lines 15-107) on a failure-free
run.  `should_skip` models `rate_controller.should_skip_strategy()`: with no
failures recorded the streak never grows, so the flag is constant across the
run (lines 44 and 52 read the same value). -/
def fetch_posts (should_skip : Bool) (results : String → List Cand)
    (max_posts : Nat) (keywords : List String) : List Cand :=
  if keywords = [] then []
  else if should_skip then []
  else go results max_posts [] keywords

end SearchStrategy

/-! ## PaginatedStrategy (spec-modelled) -/

namespace PaginatedStrategy

/-- Modelled from the spec: `PaginatedStrategy.fetch_posts`
(strategies/paginated.py is imported by subreddit_scraper.py and
time_range.py but its source file is not available).  Spec §4.3: starting
from an initial cursor, request one page at a time; `pages c` returns the
candidates of the page in listing order together with the next-page cursor
(none when the source is exhausted); append the page candidates until the quota
is reached; stop when the quota is met, the cursor chain ends, or the page
budget `max_pages` is exhausted. -/
def go (pages : Nat → List Cand × Option Nat) :
    Nat → Nat → Nat → List Cand
  | 0, _, _ => []
  | budget + 1, cursor, quota =>
    if quota = 0 then []
    else
      let took := (pages cursor).1.take quota
      match (pages cursor).2 with
      | none => took
      | some next => took ++ go pages budget next (quota - took.length)

/-- Modelled from the spec: the entry point of the paginated strategy,
driving the cursor chain from cursor `0` under page budget `max_pages`. -/
def fetch_posts (pages : Nat → List Cand × Option Nat) (max_posts : Nat)
    (max_pages : Nat) : List Cand :=
  go pages max_pages 0 max_posts

end PaginatedStrategy

/-! ## RedditScraper (scraper.py) -/

/-- The Python `pat in s` substring test over character lists: some suffix of
`s` starts with `pat` (true for the empty `pat`, as in Python). -/
def pyIn (pat : List Char) : List Char → Bool
  | [] => pat.isEmpty
  | c :: rest => pat.isPrefixOf (c :: rest) || pyIn pat rest

/-- The Python `s.split(sep)` for a nonempty separator, over character lists:
scan left to right, cutting a piece at each non-overlapping occurrence of
`sep`.  `acc` holds the current piece reversed; the fuel argument (always
instantiated with the length of the remaining text, which each step
strictly decreases for nonempty `sep`) makes the recursion structural. -/
def pySplitGo (sep : List Char) : Nat → List Char → List Char → List (List Char)
  | _, acc, [] => [acc.reverse]
  | 0, acc, rest => [acc.reverse ++ rest]
  | fuel + 1, acc, c :: rest =>
    if sep.isPrefixOf (c :: rest) then
      acc.reverse :: pySplitGo sep fuel [] ((c :: rest).drop sep.length)
    else
      pySplitGo sep fuel (c :: acc) rest

/-- The Python `s.split(sep)` (nonempty `sep`); never returns an empty list. -/
def pySplit (s sep : List Char) : List (List Char) :=
  pySplitGo sep (s.length + 1) [] s

namespace RedditScraper

/-- The target parsing of `RedditScraper.__init__` (scraper.py lines 24-56):
returns `(is_user_mode, target_name)`.  The result starts as
`(false, target)` and is only overwritten by the URL / shorthand branches;
there is no failure case.  Python string operations (`in`, `split`,
`startswith`) are the character-list functions above; `parts[1].split("/")[0]`
is the head of the split of the second piece, and `split("/")[-1]` is the
last piece. -/
def parse_target (target : String) : Bool × String :=
  let cs := target.data
  if pyIn "reddit.com".data cs then
    if pyIn "/user/".data cs then
      (true,
        match pySplit cs "/user/".data with
        | _ :: p1 :: _ => String.mk ((pySplit p1 "/".data).headD [])
        | _ => target)
    else if pyIn "/r/".data cs then
      (false,
        match pySplit cs "/r/".data with
        | _ :: p1 :: _ => String.mk ((pySplit p1 "/".data).headD [])
        | _ => target)
    else (false, target)
  else if "u/".data.isPrefixOf cs ∨ "user/".data.isPrefixOf cs then
    (true, String.mk ((pySplit cs "/".data).getLastD []))
  else if "r/".data.isPrefixOf cs then
    (false, String.mk ((pySplit cs "/".data).getLastD []))
  else (false, target)

end RedditScraper

/-- The Python `range(0, len(l), bs)` slicing of `l` into consecutive batches
`l[i:i+bs]`, written with an explicit fuel argument (the length of the list) so
the recursion is structural; for `bs ≥ 1` the fuel is never exhausted. -/
def pyChunksGo (bs : Nat) : Nat → List Cand → List (List Cand)
  | _, [] => []
  | 0, l => [l]
  | fuel + 1, l => l.take bs :: pyChunksGo bs fuel (l.drop bs)

/-- The batches `post_urls[i:i+batch_size]` of scraper.py line 208. -/
def pyChunks (bs : Nat) (l : List Cand) : List (List Cand) :=
  pyChunksGo bs l.length l

namespace RedditScraper

/-- One batch body of `_filter_existing_posts` (scraper.py lines 208-218):
collect the batch ids the store reports as existing, then keep the batch
candidates whose id is not among them.  `existsP` models
`local_data_manager.check_post_exists`. -/
def filter_batch (existsP : String → Bool) (batch : List Cand) : List Cand :=
  let existing_ids := (batch.map Prod.snd).filter existsP
  batch.filter fun c => decide (c.2 ∉ existing_ids)

/-- `RedditScraper._filter_existing_posts` (scraper.py lines 203-220):
process the candidate list in batches of `batch_size`, appending each
surviving candidates of each batch in order. -/
def filter_existing_posts (existsP : String → Bool) (batch_size : Nat)
    (post_urls : List Cand) : List Cand :=
  ((pyChunks batch_size post_urls).map (filter_batch existsP)).flatten

end RedditScraper

/-- The outcome dictionary of `RedditScraper.scrape`, restricted to the
fields the claims concern: the `status` value and, on success, the
`scraped_count`. -/
inductive ScrapeStatus where
  | error (msg : String)
  | success (scraped_count : Nat)
deriving DecidableEq, Repr

namespace RedditScraper

/-- The detail-fetch loop of `scrape` (scraper.py lines 133-166): stop once
`scraped_count` reaches `max_posts` (checked at the top of each iteration);
`fetch_ok url` models whether `post_scraper.scrape_post(url)` returns a
success result, which is when `scraped_count` is incremented. -/
def scrape_loop (fetch_ok : String → Bool) (max_posts : Nat) :
    Nat → List Cand → Nat
  | count, [] => count
  | count, c :: rest =>
    if max_posts ≤ count then count
    else scrape_loop fetch_ok max_posts
      (if fetch_ok c.1 then count + 1 else count) rest

/-- The status/count outcome of `RedditScraper.scrape` (scraper.py lines
72-201) as a function of the candidate list the step-1 strategies returned:
an empty list returns the error status with message "No posts found"
(line 115); otherwise the existing-post filter runs with the default
`batch_size = 100`, an all-filtered list returns success with
`scraped_count = 0` (line 126), and otherwise the detail loop runs and the
status is success with the final `scraped_count` (lines 196-201). -/
def scrape (fetch_ok : String → Bool) (existsP : String → Bool)
    (max_posts : Nat) (post_urls : List Cand) : ScrapeStatus :=
  if post_urls = [] then .error "No posts found"
  else
    let new_posts := filter_existing_posts existsP 100 post_urls
    if new_posts.length = 0 then .success 0
    else .success (scrape_loop fetch_ok max_posts 0 new_posts)

end RedditScraper

/-- The description the spec gives of the existing-post filter (§4.7): a single pass
keeping exactly the candidates whose id the store does not report as
existing, in order. -/
def single_pass_filter (existsP : String → Bool) (posts : List Cand) :
    List Cand :=
  posts.filter fun c => !existsP c.2

/-! ## Helper lemmas -/

theorem mergeDedup_nodup : ∀ (l acc : List Cand),
    (acc.map Prod.snd).Nodup → ((mergeDedup acc l).map Prod.snd).Nodup
  | [], acc, h => by simpa [mergeDedup] using h
  | c :: rest, acc, h => by
    simp only [mergeDedup]
    by_cases hc : c.2 ∈ acc.map Prod.snd
    · rw [if_pos hc]
      exact mergeDedup_nodup rest acc h
    · rw [if_neg hc]
      exact mergeDedup_nodup rest (acc ++ [c]) (by simp [List.nodup_append, h, hc])

theorem mergeDedup_length_le : ∀ (l acc : List Cand),
    (mergeDedup acc l).length ≤ acc.length + l.length
  | [], acc => by simp [mergeDedup]
  | c :: rest, acc => by
    simp only [mergeDedup]
    by_cases hc : c.2 ∈ acc.map Prod.snd
    · rw [if_pos hc]
      have := mergeDedup_length_le rest acc
      simp only [List.length_cons]
      omega
    · rw [if_neg hc]
      have := mergeDedup_length_le rest (acc ++ [c])
      simp only [List.length_append, List.length_cons, List.length_nil] at this ⊢
      omega

theorem mergeDedup_eq_append : ∀ (l acc : List Cand),
    (((acc ++ l).map Prod.snd)).Nodup → mergeDedup acc l = acc ++ l
  | [], acc, _ => by simp [mergeDedup]
  | c :: rest, acc, h => by
    have hc : c.2 ∉ acc.map Prod.snd := by
      simp only [List.map_append, List.map_cons, List.nodup_append] at h
      intro hmem
      exact h.2.2 hmem (by simp)
    have h' : (((acc ++ [c]) ++ rest).map Prod.snd).Nodup := by
      simpa [List.append_assoc] using h
    calc mergeDedup acc (c :: rest)
        = mergeDedup (acc ++ [c]) rest := by simp [mergeDedup, hc]
      _ = (acc ++ [c]) ++ rest := mergeDedup_eq_append rest (acc ++ [c]) h'
      _ = acc ++ c :: rest := by simp

theorem mergeTrunc_nodup : ∀ (l : List Cand) (mp : Nat) (acc : List Cand),
    (acc.map Prod.snd).Nodup → ((mergeTrunc mp acc l).map Prod.snd).Nodup
  | [], _, acc, h => by simpa [mergeTrunc] using h
  | c :: rest, mp, acc, h => by
    simp only [mergeTrunc]
    by_cases hc : c.2 ∈ acc.map Prod.snd
    · rw [if_pos hc]
      exact mergeTrunc_nodup rest mp acc h
    · rw [if_neg hc]
      have h' : ((acc ++ [c]).map Prod.snd).Nodup := by
        simp [List.nodup_append, h, hc]
      by_cases hl : mp ≤ (acc ++ [c]).length
      · rw [if_pos hl]
        exact h'
      · rw [if_neg hl]
        exact mergeTrunc_nodup rest mp (acc ++ [c]) h'

theorem mergeTrunc_length_le : ∀ (l : List Cand) (mp : Nat) (acc : List Cand),
    acc.length < mp → (mergeTrunc mp acc l).length ≤ mp
  | [], _, acc, h => by simpa [mergeTrunc] using Nat.le_of_lt h
  | c :: rest, mp, acc, h => by
    simp only [mergeTrunc]
    by_cases hc : c.2 ∈ acc.map Prod.snd
    · rw [if_pos hc]
      exact mergeTrunc_length_le rest mp acc h
    · rw [if_neg hc]
      by_cases hl : mp ≤ (acc ++ [c]).length
      · rw [if_pos hl]
        simp only [List.length_append, List.length_cons, List.length_nil]
        omega
      · rw [if_neg hl]
        exact mergeTrunc_length_le rest mp (acc ++ [c])
          (by simp only [List.length_append, List.length_cons,
                List.length_nil] at hl ⊢; omega)

theorem paginated_go_length_le (pages : Nat → List Cand × Option Nat) :
    ∀ (budget cursor quota : Nat),
      (PaginatedStrategy.go pages budget cursor quota).length ≤ quota
  | 0, _, _ => by simp [PaginatedStrategy.go]
  | budget + 1, cursor, quota => by
    by_cases hq : quota = 0
    · simp [PaginatedStrategy.go, hq]
    · simp only [PaginatedStrategy.go, hq, if_false]
      cases hnext : (pages cursor).2 with
      | none =>
        exact List.length_take_le quota (pages cursor).1
      | some next =>
        have h1 : ((pages cursor).1.take quota).length ≤ quota :=
          List.length_take_le quota (pages cursor).1
        have h2 := paginated_go_length_le pages budget next
          (quota - ((pages cursor).1.take quota).length)
        simp only [List.length_append]
        omega

/-- The spec-modelled paginated strategy never returns more candidates than
its quota (spec §4.2/§4.3). -/
theorem paginated_fetch_posts_length_le (pages : Nat → List Cand × Option Nat)
    (max_posts max_pages : Nat) :
    (PaginatedStrategy.fetch_posts pages max_posts max_pages).length ≤ max_posts :=
  paginated_go_length_le pages max_pages 0 max_posts

theorem coord_posts_nodup (max_posts : Nat) (sort_type : String)
    (keywords : List String) (primary : List Cand)
    (time_range_fetch search_fetch : Nat → List Cand) :
    (((SubredditScraper.fetch_subreddit_posts max_posts sort_type keywords
        primary time_range_fetch search_fetch).posts).map Prod.snd).Nodup := by
  have h0 : ((mergeDedup [] primary).map Prod.snd).Nodup :=
    mergeDedup_nodup primary [] (by simp)
  unfold SubredditScraper.fetch_subreddit_posts
  dsimp only
  split
  · dsimp only
    split
    · split
      · exact mergeTrunc_nodup _ _ _ (mergeTrunc_nodup _ _ _ h0)
      · exact mergeTrunc_nodup _ _ _ h0
    · split
      · exact mergeTrunc_nodup _ _ _ h0
      · exact h0
  · exact h0

theorem coord_posts_length_le (max_posts : Nat) (sort_type : String)
    (keywords : List String) (primary : List Cand)
    (time_range_fetch search_fetch : Nat → List Cand)
    (hp : primary.length ≤ max_posts) :
    ((SubredditScraper.fetch_subreddit_posts max_posts sort_type keywords
        primary time_range_fetch search_fetch).posts).length ≤ max_posts := by
  have h0 : (mergeDedup [] primary).length ≤ max_posts := by
    have := mergeDedup_length_le primary []
    simp only [List.length_nil, Nat.zero_add] at this
    omega
  unfold SubredditScraper.fetch_subreddit_posts
  dsimp only
  split
  next hlt =>
    dsimp only
    split
    next =>
      split
      next hs => exact mergeTrunc_length_le _ _ _ hs.2
      next => exact mergeTrunc_length_le _ _ _ hlt
    next =>
      split
      next hs => exact mergeTrunc_length_le _ _ _ hs.2
      next => exact Nat.le_of_lt hlt
  next => exact h0

theorem timeRange_go_reqs (fetch_window : String → Nat → List Cand)
    (max_posts : Nat) :
    ∀ (trs : List String) (acc : List Cand) (reqs : List TRReq),
      (∀ r ∈ reqs, r.countBefore < max_posts) →
      ∀ r ∈ (TimeRangeStrategy.go fetch_window max_posts acc reqs trs).2,
        r.countBefore < max_posts
  | [], _, reqs, h => by simpa [TimeRangeStrategy.go] using h
  | tr :: rest, acc, reqs, h => by
    simp only [TimeRangeStrategy.go]
    by_cases hl : max_posts ≤ acc.length
    · rw [if_pos hl]
      exact h
    · rw [if_neg hl]
      refine timeRange_go_reqs fetch_window max_posts rest _ _ ?_
      intro r hr
      rcases List.mem_append.1 hr with h1 | h2
      · exact h r h1
      · rw [List.mem_singleton.1 h2]
        exact Nat.lt_of_not_le hl

theorem filter_batch_eq_single_pass (existsP : String → Bool)
    (batch : List Cand) :
    RedditScraper.filter_batch existsP batch = single_pass_filter existsP batch := by
  unfold RedditScraper.filter_batch single_pass_filter
  dsimp only
  refine List.filter_congr ?_
  intro c hc
  have hmem : c.2 ∈ batch.map Prod.snd := List.mem_map_of_mem Prod.snd hc
  by_cases hp : existsP c.2 = true
  · simp [List.mem_filter, hmem, hp]
  · simp [List.mem_filter, hp]

theorem pyChunksGo_filter (existsP : String → Bool) (bs : Nat) (hbs : 1 ≤ bs) :
    ∀ (fuel : Nat) (posts : List Cand), posts.length ≤ fuel →
      ((pyChunksGo bs fuel posts).map (RedditScraper.filter_batch existsP)).flatten
        = single_pass_filter existsP posts
  | fuel, [], _ => by simp [pyChunksGo, single_pass_filter]
  | 0, c :: rest, h => by simp at h
  | fuel + 1, c :: rest, h => by
    simp only [pyChunksGo, List.map_cons, List.flatten_cons]
    rw [filter_batch_eq_single_pass]
    rw [pyChunksGo_filter existsP bs hbs fuel ((c :: rest).drop bs)
      (by simp only [List.length_drop, List.length_cons] at h ⊢; omega)]
    unfold single_pass_filter
    rw [← List.filter_append, List.take_append_drop]

theorem filter_existing_eq_single_pass (existsP : String → Bool)
    (batch_size : Nat) (hbs : 1 ≤ batch_size) (posts : List Cand) :
    RedditScraper.filter_existing_posts existsP batch_size posts
      = single_pass_filter existsP posts := by
  unfold RedditScraper.filter_existing_posts pyChunks
  exact pyChunksGo_filter existsP batch_size hbs posts.length posts (Nat.le_refl _)

/-! ## Claims -/

/-- Claim C1: for every coordinator run
(`SubredditScraper.fetch_subreddit_posts` with any target, any quota
`max_posts > 0`, any sort type and keyword list, the primary candidates being
those of the spec-modelled paginated strategy), the returned list of
`(url, id)` pairs contains no two entries with the same id, and its length
never exceeds `max_posts`. -/
theorem claim1_coordinator_output_invariants
    (pages : Nat → List Cand × Option Nat) (max_pages max_posts : Nat)
    (sort_type : String) (keywords : List String)
    (time_range_fetch search_fetch : Nat → List Cand)
    (_hq : 0 < max_posts) :
    (((SubredditScraper.fetch_subreddit_posts max_posts sort_type keywords
        (PaginatedStrategy.fetch_posts pages max_posts max_pages)
        time_range_fetch search_fetch).posts).map Prod.snd).Nodup ∧
    ((SubredditScraper.fetch_subreddit_posts max_posts sort_type keywords
        (PaginatedStrategy.fetch_posts pages max_posts max_pages)
        time_range_fetch search_fetch).posts).length ≤ max_posts :=
  ⟨coord_posts_nodup max_posts sort_type keywords _ time_range_fetch search_fetch,
   coord_posts_length_le max_posts sort_type keywords _ time_range_fetch
     search_fetch (paginated_fetch_posts_length_le pages max_posts max_pages)⟩

theorem claim1_witness :
    (((SubredditScraper.fetch_subreddit_posts 2 "hot" ["k"]
        (PaginatedStrategy.fetch_posts
          (fun _ => ([("u1", "a"), ("u2", "b"), ("u3", "a")], none)) 2 5)
        (fun _ => [("u4", "c")]) (fun _ => [("u5", "d")])).posts).map
      Prod.snd).Nodup ∧
    ((SubredditScraper.fetch_subreddit_posts 2 "hot" ["k"]
        (PaginatedStrategy.fetch_posts
          (fun _ => ([("u1", "a"), ("u2", "b"), ("u3", "a")], none)) 2 5)
        (fun _ => [("u4", "c")]) (fun _ => [("u5", "d")])).posts).length ≤ 2 :=
  claim1_coordinator_output_invariants
    (fun _ => ([("u1", "a"), ("u2", "b"), ("u3", "a")], none)) 5 2 "hot" ["k"]
    (fun _ => [("u4", "c")]) (fun _ => [("u5", "d")]) (by decide)

/-- Claim C2 (refuted, code bug): with `max_posts = 1` and the single window
`"week"` whose per-window paginated fetch returns two distinct candidates,
`TimeRangeStrategy.fetch_posts` asks the window for
`min(max(100, 1 - 0), 1000) = 100` candidates — not the remaining deficit
1 — and returns both candidates, so its result holds more than `max_posts`
candidates (time_range.py line 47 computes `max(100, ...)` where the claim
and the spec require the deficit). -/
theorem claim2_time_range_overfetch_eval :
    TimeRangeStrategy.fetch_posts (fun _ _ => [("u1", "a"), ("u2", "b")]) 1
        ["week"]
      = ([("u1", "a"), ("u2", "b")], [⟨"week", 100, 0⟩]) ∧
    ¬((TimeRangeStrategy.fetch_posts (fun _ _ => [("u1", "a"), ("u2", "b")]) 1
        ["week"]).1.length ≤ 1) := by
  refine ⟨by decide, by decide⟩

/-- Claim C3 (refuted, code bug): with `keywords = ["a", "b"]` and
`max_posts = 10`, the per-keyword quota `max(1, 10 // 2) = 5` is computed by
search.py line 40 but never used: a search response for keyword `"a"`
holding ten distinct posts contributes all ten candidates, exceeding the
claimed per-keyword bound of 5. -/
theorem claim3_search_quota_division_eval :
    (SearchStrategy.fetch_posts false
        (fun kw =>
          if kw = "a" then
            [("u1", "p1"), ("u2", "p2"), ("u3", "p3"), ("u4", "p4"),
             ("u5", "p5"), ("u6", "p6"), ("u7", "p7"), ("u8", "p8"),
             ("u9", "p9"), ("u10", "p10")]
          else []) 10 ["a", "b"]).length = 10 ∧
    pyPostsPerKeyword 10 ["a", "b"] = 5 := by
  refine ⟨by decide, by decide⟩

/-- Claim C4 (counterexample): the target string `"!!!"` is neither a
reddit.com URL, nor `r/`/`u/`/`user/` shorthand, nor a valid bare subreddit
name, yet `RedditScraper.__init__` raises nothing: it silently defaults to
subreddit mode with the raw string as the name. -/
theorem claim4_counterexample :
    RedditScraper.parse_target "!!!" = (false, "!!!") := by decide

/-- Claim C4 (amended): for every target string that is not a reddit.com URL
and does not start with `u/`, `user/` or `r/`, constructing the scraper
raises no validation error: the target silently defaults to subreddit mode
with `target_name` equal to the raw input string. -/
theorem claim4_invalid_target_silently_defaults (target : String)
    (h1 : pyIn "reddit.com".data target.data = false)
    (h2 : "u/".data.isPrefixOf target.data = false)
    (h3 : "user/".data.isPrefixOf target.data = false)
    (h4 : "r/".data.isPrefixOf target.data = false) :
    RedditScraper.parse_target target = (false, target) := by
  unfold RedditScraper.parse_target
  simp [h1, h2, h3, h4]

theorem claim4_witness :
    RedditScraper.parse_target "weird target!" = (false, "weird target!") :=
  claim4_invalid_target_silently_defaults "weird target!"
    (by decide) (by decide) (by decide) (by decide)

/-- Claim C5 (counterexample): a run in which the primary, time-range and
search strategies are all invoked (so requests are issued) but return no
candidates is reported with the error status — refuting the claim that an
error status is reported only for a requestless failure. -/
theorem claim5_counterexample :
    (SubredditScraper.fetch_subreddit_posts 10 "hot" ["kw"] [] (fun _ => [])
        (fun _ => [])).posts = [] ∧
    (SubredditScraper.fetch_subreddit_posts 10 "hot" ["kw"] [] (fun _ => [])
        (fun _ => [])).usedTimeRange = true ∧
    (SubredditScraper.fetch_subreddit_posts 10 "hot" ["kw"] [] (fun _ => [])
        (fun _ => [])).usedSearch = true ∧
    RedditScraper.scrape (fun _ => true) (fun _ => false) 10
      (SubredditScraper.fetch_subreddit_posts 10 "hot" ["kw"] [] (fun _ => [])
        (fun _ => [])).posts = .error "No posts found" := by
  refine ⟨by decide, by decide, by decide, by decide⟩

/-- Claim C5 (amended): `RedditScraper.scrape` reports the error status
exactly when the strategies returned zero candidates — whether or not
requests were issued — and any run with at least one candidate is reported
as a success (with whatever smaller count resulted). -/
theorem claim5_error_iff_no_candidates (fetch_ok existsP : String → Bool)
    (max_posts : Nat) (post_urls : List Cand) :
    (RedditScraper.scrape fetch_ok existsP max_posts post_urls
        = .error "No posts found" ↔ post_urls = []) ∧
    (post_urls ≠ [] → ∃ n, RedditScraper.scrape fetch_ok existsP max_posts
        post_urls = .success n) := by
  unfold RedditScraper.scrape
  by_cases h : post_urls = []
  · simp [h]
  · rw [if_neg h]
    dsimp only
    have hs : ∃ n,
        (if (RedditScraper.filter_existing_posts existsP 100 post_urls).length
              = 0 then
          ScrapeStatus.success 0
        else
          ScrapeStatus.success (RedditScraper.scrape_loop fetch_ok max_posts 0
            (RedditScraper.filter_existing_posts existsP 100 post_urls)))
          = ScrapeStatus.success n := by
      split
      · exact ⟨0, rfl⟩
      · exact ⟨_, rfl⟩
    obtain ⟨n, hn⟩ := hs
    rw [hn]
    exact ⟨by simp [h], fun _ => ⟨n, rfl⟩⟩

theorem claim5_witness :
    ∃ n, RedditScraper.scrape (fun _ => true) (fun _ => false) 5 [("u", "a")]
      = ScrapeStatus.success n :=
  (claim5_error_iff_no_candidates (fun _ => true) (fun _ => false) 5
    [("u", "a")]).2 (by decide)

/-- Claim C6: when the primary paginated strategy alone yields `max_posts`
candidates with pairwise distinct ids, the coordinator returns exactly those
candidates in the primary order and invokes neither
`TimeRangeStrategy.fetch_posts` nor `SearchStrategy.fetch_posts`. -/
theorem claim6_primary_satisfies_quota (max_posts : Nat) (sort_type : String)
    (keywords : List String) (primary : List Cand)
    (time_range_fetch search_fetch : Nat → List Cand)
    (h1 : primary.length = max_posts)
    (h2 : (primary.map Prod.snd).Nodup) :
    SubredditScraper.fetch_subreddit_posts max_posts sort_type keywords
      primary time_range_fetch search_fetch = ⟨primary, false, false⟩ := by
  have hap : mergeDedup [] primary = primary := by
    simpa using mergeDedup_eq_append primary [] (by simpa using h2)
  unfold SubredditScraper.fetch_subreddit_posts
  dsimp only
  rw [hap, h1, if_neg (Nat.lt_irrefl max_posts)]

theorem claim6_witness :
    SubredditScraper.fetch_subreddit_posts 2 "hot" ["k"]
        [("u1", "a"), ("u2", "b")] (fun _ => [("u3", "c")])
        (fun _ => [("u4", "d")])
      = ⟨[("u1", "a"), ("u2", "b")], false, false⟩ :=
  claim6_primary_satisfies_quota 2 "hot" ["k"] [("u1", "a"), ("u2", "b")]
    (fun _ => [("u3", "c")]) (fun _ => [("u4", "d")]) (by decide) (by decide)

/-- Claim C7: `RedditScraper._filter_existing_posts` (with its default batch
size 100) returns exactly the candidates whose id the post store does not
report as existing, in their original relative order — i.e. it equals the
single-pass filter of the spec. -/
theorem claim7_filter_existing_exact (existsP : String → Bool)
    (post_urls : List Cand) :
    RedditScraper.filter_existing_posts existsP 100 post_urls
      = single_pass_filter existsP post_urls :=
  filter_existing_eq_single_pass existsP 100 (by omega) post_urls

/-- Claim C8: in every `TimeRangeStrategy.fetch_posts` invocation, every
per-window request is issued while the running total of collected candidates
is still below `max_posts`; once the total reaches `max_posts` no further
window is requested. -/
theorem claim8_no_window_after_quota (fetch_window : String → Nat → List Cand)
    (max_posts : Nat) (time_ranges : List String) :
    ∀ r ∈ (TimeRangeStrategy.fetch_posts fetch_window max_posts
        time_ranges).2, r.countBefore < max_posts := by
  unfold TimeRangeStrategy.fetch_posts
  exact timeRange_go_reqs fetch_window max_posts _ [] []
    (fun r hr => absurd hr (List.not_mem_nil r))

theorem claim8_witness :
    (⟨"week", 100, 0⟩ : TRReq).countBefore < 1 :=
  claim8_no_window_after_quota (fun _ _ => [("u1", "a")]) 1 ["week"]
    ⟨"week", 100, 0⟩ (by decide)

/-- Claim C9: for every candidate list, existence predicate and
`batch_size ≥ 1`, `_filter_existing_posts` returns the same list as the
single-pass per-id filter — the batching is observationally irrelevant. -/
theorem claim9_batching_irrelevant (existsP : String → Bool)
    (batch_size : Nat) (post_urls : List Cand) (h : 1 ≤ batch_size) :
    RedditScraper.filter_existing_posts existsP batch_size post_urls
      = single_pass_filter existsP post_urls :=
  filter_existing_eq_single_pass existsP batch_size h post_urls

theorem claim9_witness :
    RedditScraper.filter_existing_posts (fun i => decide (i = "2")) 2
        [("a", "1"), ("b", "2"), ("c", "3")]
      = single_pass_filter (fun i => decide (i = "2"))
          [("a", "1"), ("b", "2"), ("c", "3")] :=
  claim9_batching_irrelevant (fun i => decide (i = "2")) 2
    [("a", "1"), ("b", "2"), ("c", "3")] (by omega)

/-- Claim C10: when the strategies return a non-empty candidate list but the
post store already has every returned id, `RedditScraper.scrape` returns the
success status with `scraped_count = 0`, not an error. -/
theorem claim10_all_existing_success_zero (fetch_ok existsP : String → Bool)
    (max_posts : Nat) (post_urls : List Cand) (h1 : post_urls ≠ [])
    (h2 : ∀ c ∈ post_urls, existsP c.2 = true) :
    RedditScraper.scrape fetch_ok existsP max_posts post_urls
      = .success 0 := by
  unfold RedditScraper.scrape
  rw [if_neg h1]
  dsimp only
  have hf : RedditScraper.filter_existing_posts existsP 100 post_urls = [] := by
    rw [filter_existing_eq_single_pass existsP 100 (by omega) post_urls]
    unfold single_pass_filter
    simp only [List.filter_eq_nil_iff]
    intro c hc
    simp [h2 c hc]
  rw [hf]
  simp

theorem claim10_witness :
    RedditScraper.scrape (fun _ => true) (fun _ => true) 5 [("u", "a")]
      = ScrapeStatus.success 0 :=
  claim10_all_existing_success_zero (fun _ => true) (fun _ => true) 5
    [("u", "a")] (by decide) (by decide)

end XRCrawler
